import Mathlib

/-!
Verification of the checkout and order-placement flow of the constructo-app
mobile storefront client.

The embedding follows `src/frontend/app/checkout.tsx` (address validation,
shipping-fee computation, `handleRazorpayPayment`, `handlePlaceOrder`, the
empty-cart render branch), `src/frontend/src/api/payments.ts` and the
orders API wrapper, and the zustand cart store (`clearCart`, `setCart`).

External collaborators (the REST backend, the Razorpay payment UI on web and
native) are modelled as an environment record of oracle responses; a checkout
execution is a pure function of that environment producing the list of
observable events (network calls, alerts, cart clearing) plus the final local
cart state.
-/

/-- Shipping address: all fields required except `address_line2`
(from `src/api/orders.ts` and the checkout form). -/
structure ShippingAddress where
  full_name : String
  phone : String
  address_line1 : String
  address_line2 : Option String
  city : String
  state : String
  pincode : String
deriving DecidableEq, Repr

/-- Product as stored in cart line items (cart store). -/
structure Product where
  id : String
  name : String
  price : Int
  image : String
  brand : Option String
deriving DecidableEq, Repr

/-- A cart line item (cart store). -/
structure CartItem where
  product_id : String
  quantity : Int
  product : Product
deriving DecidableEq, Repr

/-- Local cart store state: `items` and `total` (zustand cart store). -/
structure CartState where
  items : List CartItem
  total : Int
deriving DecidableEq, Repr

/-- `clearCart` from the cart store: resets items to `[]` and total to `0`. -/
def clearCart (_s : CartState) : CartState := { items := [], total := 0 }

/-- `setCart` from the cart store: replaces items and total wholesale. -/
def setCart (_s : CartState) (items : List CartItem) (total : Int) : CartState :=
  { items := items, total := total }

/-- Payment-intent response of `POST /payments/create-order`
(`RazorpayOrder` in `src/api/payments.ts`). -/
structure RazorpayOrder where
  razorpay_order_id : String
  amount : Int
  currency : String
  key_id : String
deriving DecidableEq, Repr

/-- The proof-of-payment tuple forwarded to `POST /payments/verify`
(`VerifyPaymentData` in `src/api/payments.ts`). -/
structure VerifyPaymentData where
  razorpay_order_id : String
  razorpay_payment_id : String
  razorpay_signature : String
  order_id : String
deriving DecidableEq, Repr

/-- Body of `POST /orders` (`CreateOrderData` in `src/api/orders.ts`). -/
structure CreateOrderData where
  shipping_address : ShippingAddress
  payment_method : String
deriving DecidableEq, Repr

/-- The server-created Order, reduced to the fields the checkout flow reads:
the server-assigned `id` and the server-owned `status`. -/
structure Order where
  id : String
  status : String
deriving DecidableEq, Repr

/-- The two values of the `paymentMethod` state:
`useState<'cod' | 'razorpay'>('razorpay')` in `checkout.tsx`. -/
inductive PaymentMethod
  | cod
  | razorpay
deriving DecidableEq, Repr

/-- The string actually placed in the `payment_method` field of the
`POST /orders` body (`payment_method: paymentMethod` in `handlePlaceOrder`). -/
def PaymentMethod.toStr : PaymentMethod → String
  | .cod => "cod"
  | .razorpay => "razorpay"

/-- `Platform.OS === 'web'` branch selector in `handleRazorpayPayment`. -/
inductive ClientPlatform
  | web
  | native
deriving DecidableEq, Repr

/-- Successful result tuple delivered by the Razorpay payment UI
(the `response` of the web `handler` / of `RazorpayCheckout.open`). -/
structure GatewaySuccess where
  razorpay_order_id : String
  razorpay_payment_id : String
  razorpay_signature : String
deriving DecidableEq, Repr

/-- Error thrown by the native `RazorpayCheckout.open`: carries an optional
`code` (equal to `"PAYMENT_CANCELLED"` on user cancellation) and an optional
human-readable `description`. -/
structure GatewayError where
  code : Option String
  description : Option String
deriving DecidableEq, Repr

/-- Outcome of presenting the external payment UI: either the success tuple,
or a raised error (which on the web path simply never invokes the registered
success handler). -/
inductive GatewayOutcome
  | success (r : GatewaySuccess)
  | errRaise (e : GatewayError)
deriving DecidableEq, Repr

/-- Response of `POST /orders`: the created Order, or a failure optionally
carrying `error.response.data.detail`. -/
inductive OrderResult
  | ok (o : Order)
  | fail (detail : Option String)
deriving DecidableEq, Repr

/-- Response of `POST /payments/create-order`. -/
inductive IntentResult
  | ok (r : RazorpayOrder)
  | fail
deriving DecidableEq, Repr

/-- Oracle responses of the external collaborators for one checkout
execution: order creation, payment-intent creation, the payment UI outcome,
and whether `POST /payments/verify` accepts the tuple. -/
structure CheckoutEnv where
  createOrderResult : OrderResult
  createIntentResult : IntentResult
  gatewayResult : GatewayOutcome
  verifyOk : Bool
deriving DecidableEq, Repr

def OrderResult.isOk : OrderResult → Bool
  | .ok _ => true
  | .fail _ => false

def IntentResult.isOk : IntentResult → Bool
  | .ok _ => true
  | .fail => false

def GatewayOutcome.isSuccess : GatewayOutcome → Bool
  | .success _ => true
  | .errRaise _ => false

/-- Observable events of one checkout execution: outbound network calls,
the payment-UI presentation, cart clearing, and alerts. -/
inductive Event
  | createOrderCall (body : CreateOrderData)
  | createIntentCall (amount : Int)
  | presentPaymentUI
  | verifyCall (data : VerifyPaymentData)
  | cartCleared
  | alert (title msg : String)
deriving DecidableEq, Repr

/-- `const shippingFee = total > 5000 ? 0 : 99` (checkout.tsx line 39). -/
def shippingFee (total : Int) : Int := if total > 5000 then 0 else 99

/-- `const grandTotal = total + shippingFee` (checkout.tsx line 40). -/
def grandTotal (total : Int) : Int := total + shippingFee total

/-- `validateAddress` (checkout.tsx lines 42-60), with JS string falsiness
(`!s` is true exactly for the empty string) made explicit. Returns the
alert message on failure, `none` on pass. -/
def validateAddress (address : ShippingAddress) : Option String :=
  if address.full_name = "" ∨ address.phone = "" ∨ address.address_line1 = "" ∨
      address.city = "" ∨ address.state = "" ∨ address.pincode = "" then
    some "Please fill in all required fields"
  else if address.phone.length < 10 then
    some "Please enter a valid phone number"
  else if address.pincode.length ≠ 6 then
    some "Please enter a valid 6-digit pincode"
  else
    none

/-- The success-alert message built from the order id:
`Your order #${orderId.slice(0, 8)} has been placed successfully.` -/
def successAlertMsg (orderId : String) : String :=
  "Your order #" ++ orderId.take 8 ++ " has been placed successfully."

/-- `handleRazorpayPayment` (checkout.tsx lines 62-174). Takes the grand total
(closed over in the source) and the freshly created order id; returns the
event trace and the resulting cart state.

Faithful points: the `POST /payments/create-order` call is issued first and
its failure is caught by the outer catch (generic initiate-payment alert).
On web, only a success `handler` is registered with the widget, so a
cancellation or gateway error produces no further events; on success the
handler verifies, then clears the cart and alerts success, and a verify
failure is caught inside the handler with the distinct contact-support alert.
On native, `RazorpayCheckout.open` is awaited inside a try whose catch also
wraps the verify call: a thrown gateway error alerts payment-failed unless
`error.code === 'PAYMENT_CANCELLED'`, and a verify failure (an HTTP-client
error, whose `code` is never `PAYMENT_CANCELLED` and which has no
`description`) lands in the same catch and alerts payment-failed with the
fallback text. -/
def handleRazorpayPayment (env : CheckoutEnv) (p : ClientPlatform)
    (grandTotalAmt : Int) (orderId : String) (cart : CartState) :
    List Event × CartState :=
  match env.createIntentResult with
  | .fail =>
      ([.createIntentCall grandTotalAmt,
        .alert "Error" "Failed to initiate payment. Please try again."], cart)
  | .ok _razorpayOrder =>
      match p with
      | .web =>
          match env.gatewayResult with
          | .success r =>
              let vdata : VerifyPaymentData :=
                { razorpay_order_id := r.razorpay_order_id
                  razorpay_payment_id := r.razorpay_payment_id
                  razorpay_signature := r.razorpay_signature
                  order_id := orderId }
              if env.verifyOk then
                ([.createIntentCall grandTotalAmt, .presentPaymentUI,
                  .verifyCall vdata, .cartCleared,
                  .alert "Payment Successful!" (successAlertMsg orderId)],
                 clearCart cart)
              else
                ([.createIntentCall grandTotalAmt, .presentPaymentUI,
                  .verifyCall vdata,
                  .alert "Payment Verification Failed" "Please contact support."],
                 cart)
          | .errRaise _ =>
              ([.createIntentCall grandTotalAmt, .presentPaymentUI], cart)
      | .native =>
          match env.gatewayResult with
          | .success r =>
              let vdata : VerifyPaymentData :=
                { razorpay_order_id := r.razorpay_order_id
                  razorpay_payment_id := r.razorpay_payment_id
                  razorpay_signature := r.razorpay_signature
                  order_id := orderId }
              if env.verifyOk then
                ([.createIntentCall grandTotalAmt, .presentPaymentUI,
                  .verifyCall vdata, .cartCleared,
                  .alert "Payment Successful!" (successAlertMsg orderId)],
                 clearCart cart)
              else
                ([.createIntentCall grandTotalAmt, .presentPaymentUI,
                  .verifyCall vdata,
                  .alert "Payment Failed" "Something went wrong"], cart)
          | .errRaise e =>
              if e.code = some "PAYMENT_CANCELLED" then
                ([.createIntentCall grandTotalAmt, .presentPaymentUI], cart)
              else
                ([.createIntentCall grandTotalAmt, .presentPaymentUI,
                  .alert "Payment Failed" (e.description.getD "Something went wrong")],
                 cart)

/-- `handlePlaceOrder` (checkout.tsx lines 176-211): validate, create the
order, then branch on the payment method. The order-creation failure is
caught with `error.response?.data?.detail || 'Failed to place order'`;
`handleRazorpayPayment` never throws (it catches internally), so only the
order-creation call can reach this catch. -/
def handlePlaceOrder (env : CheckoutEnv) (p : ClientPlatform)
    (cart : CartState) (address : ShippingAddress) (pm : PaymentMethod) :
    List Event × CartState :=
  match validateAddress address with
  | some msg => ([.alert "Error" msg], cart)
  | none =>
      let body : CreateOrderData :=
        { shipping_address := address, payment_method := pm.toStr }
      match env.createOrderResult with
      | .fail detail =>
          ([.createOrderCall body,
            .alert "Error" (detail.getD "Failed to place order")], cart)
      | .ok order =>
          match pm with
          | .razorpay =>
              let rp := handleRazorpayPayment env p (grandTotal cart.total) order.id cart
              (.createOrderCall body :: rp.1, rp.2)
          | .cod =>
              ([.createOrderCall body, .cartCleared,
                .alert "Order Placed!" (successAlertMsg order.id)],
               clearCart cart)

/-- The checkout screen around `handlePlaceOrder`: when `items.length === 0`
the empty-cart view is rendered instead (checkout.tsx lines 213-228), so the
place-order button does not exist and no events can be produced. -/
def checkoutScreenPlaceOrder (env : CheckoutEnv) (p : ClientPlatform)
    (cart : CartState) (address : ShippingAddress) (pm : PaymentMethod) :
    List Event × CartState :=
  if cart.items = [] then ([], cart)
  else handlePlaceOrder env p cart address pm

/-! Trace observables. -/

def isPaymentEvent : Event → Bool
  | .createIntentCall _ => true
  | .presentPaymentUI => true
  | .verifyCall _ => true
  | _ => false

def isCreateOrderEvent : Event → Bool
  | .createOrderCall _ => true
  | _ => false

def isVerifyEvent : Event → Bool
  | .verifyCall _ => true
  | _ => false

def isAlertEvent : Event → Bool
  | .alert _ _ => true
  | _ => false

def isClearEvent : Event → Bool
  | .cartCleared => true
  | _ => false

/-- Events that handle success: cart clearing and the success alerts. -/
def isSuccessHandlingEvent : Event → Bool
  | .cartCleared => true
  | .alert t _ => t == "Payment Successful!" || t == "Order Placed!"
  | _ => false

def countVerify (evs : List Event) : Nat := (evs.filter isVerifyEvent).length

def countClear (evs : List Event) : Nat := (evs.filter isClearEvent).length

def hasVerify (evs : List Event) : Bool := evs.any isVerifyEvent

def hasAlert (evs : List Event) : Bool := evs.any isAlertEvent

def hasCreateOrder (evs : List Event) : Bool := evs.any isCreateOrderEvent

def hasPayment (evs : List Event) : Bool := evs.any isPaymentEvent

/-- Scanning the trace from the start, no payment event occurs before the
first order-creation call. -/
def noPaymentBeforeOrder : List Event → Bool
  | [] => true
  | e :: rest =>
      if isCreateOrderEvent e then true
      else if isPaymentEvent e then false
      else noPaymentBeforeOrder rest

/-- Scanning the trace from the start, no success-handling event occurs
before the first verify call. -/
def verifyBeforeSuccessHandling : List Event → Bool
  | [] => true
  | e :: rest =>
      if isVerifyEvent e then true
      else if isSuccessHandlingEvent e then false
      else verifyBeforeSuccessHandling rest

/-- Every payment-intent creation call in the trace requests exactly `amt`. -/
def intentAmountsAre (amt : Int) (evs : List Event) : Bool :=
  evs.all fun e =>
    match e with
    | .createIntentCall a => a == amt
    | _ => true

/-- Every order-creation call in the trace carries a `payment_method`
drawn from the given list of strings. -/
def orderBodiesUse (allowed : List String) (evs : List Event) : Bool :=
  evs.all fun e =>
    match e with
    | .createOrderCall b => allowed.contains b.payment_method
    | _ => true

/-- Spec-side condition (§4.2/§4.3, state machine §4.3): the attempt reaches
`Verified(success)` on the online path, or COD order creation succeeds. -/
def reachesClearingState (env : CheckoutEnv) (address : ShippingAddress)
    (pm : PaymentMethod) : Bool :=
  (validateAddress address).isNone && env.createOrderResult.isOk &&
    (match pm with
     | .cod => true
     | .razorpay =>
         env.createIntentResult.isOk && env.gatewayResult.isSuccess && env.verifyOk)

/-- C8: the shipping-fee scenarios of the spec: a subtotal of 4000 gives fee
99 and grand total 4099; a subtotal of 6000 gives fee 0 and grand total 6000;
and every payment-intent creation call issued by the flow requests exactly
the grand total (subtotal plus fee) of the cart. -/
theorem shipping_fee_scenarios :
    shippingFee 4000 = 99 ∧ grandTotal 4000 = 4099 ∧
    shippingFee 6000 = 0 ∧ grandTotal 6000 = 6000 ∧
    ∀ (env : CheckoutEnv) (p : ClientPlatform) (cart : CartState)
      (address : ShippingAddress) (pm : PaymentMethod),
      intentAmountsAre (grandTotal cart.total)
        (handlePlaceOrder env p cart address pm).1 = true := by
  refine ⟨by decide, by decide, by decide, by decide, ?_⟩
  intro env p cart address pm
  obtain ⟨co, ci, gw, v⟩ := env
  cases h : validateAddress address <;>
    cases co <;> cases pm <;> cases ci <;> cases p <;> cases gw <;> cases v <;>
      simp [handlePlaceOrder, handleRazorpayPayment, h, intentAmountsAre] <;>
      split <;> simp [intentAmountsAre]

/-- C10: boundary of the free-shipping threshold: the fee is 0 exactly when
the subtotal strictly exceeds 5000 (`total > 5000`, not `>=`); at exactly
5000 the fee is 99 and the grand total 5099. -/
theorem shipping_fee_threshold_boundary :
    (∀ t : Int, shippingFee t = 0 ↔ 5000 < t) ∧
    shippingFee 5000 = 99 ∧ grandTotal 5000 = 5099 := by
  refine ⟨?_, by decide, by decide⟩
  intro t
  unfold shippingFee
  split <;> simp <;> omega

/-- C6: `validateAddress` checks its rules in order with the first failure
winning: the fill-all-required-fields reason exactly when some required field
(full_name, phone, address_line1, city, state, pincode) is empty; otherwise
the valid-phone reason exactly when the phone has fewer than 10 characters;
otherwise the valid-pincode reason exactly when the pincode length is not 6;
otherwise it passes. -/
theorem validateAddress_rules_in_order (a : ShippingAddress) :
    (validateAddress a = some "Please fill in all required fields" ↔
      (a.full_name = "" ∨ a.phone = "" ∨ a.address_line1 = "" ∨ a.city = "" ∨
        a.state = "" ∨ a.pincode = "")) ∧
    (validateAddress a = some "Please enter a valid phone number" ↔
      (¬(a.full_name = "" ∨ a.phone = "" ∨ a.address_line1 = "" ∨ a.city = "" ∨
          a.state = "" ∨ a.pincode = "") ∧ a.phone.length < 10)) ∧
    (validateAddress a = some "Please enter a valid 6-digit pincode" ↔
      (¬(a.full_name = "" ∨ a.phone = "" ∨ a.address_line1 = "" ∨ a.city = "" ∨
          a.state = "" ∨ a.pincode = "") ∧ 10 ≤ a.phone.length ∧
        a.pincode.length ≠ 6)) ∧
    (validateAddress a = none ↔
      (¬(a.full_name = "" ∨ a.phone = "" ∨ a.address_line1 = "" ∨ a.city = "" ∨
          a.state = "" ∨ a.pincode = "") ∧ 10 ≤ a.phone.length ∧
        a.pincode.length = 6)) := by
  unfold validateAddress
  split_ifs with h1 h2 h3 <;>
    refine ⟨?_, ?_, ?_, ?_⟩ <;> simp_all

/-- C1: the cart store is cleared exactly when the attempt reaches
`Verified(success)` on the online path or COD order creation succeeds:
`clearCart` fires exactly once in exactly those executions, and every other
terminal outcome (validation failure, order-creation failure, intent-creation
failure, gateway error, cancellation, verification failure) leaves the cart
items and total unchanged. -/
theorem cart_cleared_iff_verified_or_cod (env : CheckoutEnv)
    (p : ClientPlatform) (cart : CartState) (address : ShippingAddress)
    (pm : PaymentMethod) :
    countClear (handlePlaceOrder env p cart address pm).1
      = (if reachesClearingState env address pm then 1 else 0) ∧
    (handlePlaceOrder env p cart address pm).2
      = (if reachesClearingState env address pm then clearCart cart else cart) := by
  obtain ⟨co, ci, gw, v⟩ := env
  cases h : validateAddress address <;>
    cases co <;> cases pm <;> cases ci <;> cases p <;> cases gw <;> cases v <;>
      simp [handlePlaceOrder, handleRazorpayPayment, reachesClearingState, h,
        countClear, isClearEvent, OrderResult.isOk, IntentResult.isOk,
        GatewayOutcome.isSuccess, clearCart] <;>
      split <;>
        simp [countClear, isClearEvent]

/-- C2: in every online-payment attempt, the verify endpoint is called iff
the payment UI previously returned a success tuple (so after an
intent-creation failure, a cancellation or a gateway error there are zero
verify calls); when the UI succeeds there is exactly one verify call, and it
precedes any success handling (cart clearing or success alert). -/
theorem verify_iff_gateway_success (env : CheckoutEnv) (p : ClientPlatform)
    (grandTotalAmt : Int) (orderId : String) (cart : CartState) :
    hasVerify (handleRazorpayPayment env p grandTotalAmt orderId cart).1
      = (env.createIntentResult.isOk && env.gatewayResult.isSuccess) ∧
    countVerify (handleRazorpayPayment env p grandTotalAmt orderId cart).1
      = (if env.createIntentResult.isOk && env.gatewayResult.isSuccess
          then 1 else 0) ∧
    verifyBeforeSuccessHandling
      (handleRazorpayPayment env p grandTotalAmt orderId cart).1 = true := by
  obtain ⟨co, ci, gw, v⟩ := env
  cases co <;> cases ci <;> cases p <;> cases gw <;> cases v <;>
    simp [handleRazorpayPayment, hasVerify, countVerify, isVerifyEvent,
      verifyBeforeSuccessHandling, isSuccessHandlingEvent, IntentResult.isOk,
      GatewayOutcome.isSuccess] <;>
    split <;>
      simp [hasVerify, countVerify, isVerifyEvent, verifyBeforeSuccessHandling,
        isSuccessHandlingEvent]

/-- C3: in every checkout execution, no payment event (intent creation,
payment-UI presentation, verification) ever precedes the order-creation call;
payment events occur only in executions where order creation succeeded and
returned an order; and the order-creation call is issued exactly once
whenever validation passes — independently of every payment outcome, so
order creation is not conditional on payment success. -/
theorem order_created_before_payment (env : CheckoutEnv) (p : ClientPlatform)
    (cart : CartState) (address : ShippingAddress) (pm : PaymentMethod) :
    noPaymentBeforeOrder (handlePlaceOrder env p cart address pm).1 = true ∧
    (!hasPayment (handlePlaceOrder env p cart address pm).1
      || env.createOrderResult.isOk) = true ∧
    ((handlePlaceOrder env p cart address pm).1.filter isCreateOrderEvent).length
      = (if (validateAddress address).isNone then 1 else 0) := by
  obtain ⟨co, ci, gw, v⟩ := env
  cases h : validateAddress address <;>
    cases co <;> cases pm <;> cases ci <;> cases p <;> cases gw <;> cases v <;>
      simp [handlePlaceOrder, handleRazorpayPayment, h, noPaymentBeforeOrder,
        hasPayment, isPaymentEvent, isCreateOrderEvent, OrderResult.isOk] <;>
      split <;>
        simp [noPaymentBeforeOrder, hasPayment, isPaymentEvent,
          isCreateOrderEvent]

/-! Concrete sample values used to exercise the flow at specific inputs. -/

/-- A shipping address satisfying all the §4.1 rules. -/
def sampleAddress : ShippingAddress :=
  { full_name := "Asha Rao", phone := "9876543210",
    address_line1 := "12 MG Road", address_line2 := none,
    city := "Pune", state := "MH", pincode := "411001" }

def sampleProduct : Product :=
  { id := "p1", name := "Cement 50kg", price := 400, image := "img",
    brand := none }

def sampleCart : CartState :=
  { items := [{ product_id := "p1", quantity := 2, product := sampleProduct }],
    total := 800 }

def sampleIntent : RazorpayOrder :=
  { razorpay_order_id := "order_x", amount := 899, currency := "INR",
    key_id := "rzp_test_key" }

def sampleOrder : Order := { id := "a1b2c3d4e5", status := "pending" }

def sampleGatewaySuccess : GatewaySuccess :=
  { razorpay_order_id := "order_x", razorpay_payment_id := "pay_x",
    razorpay_signature := "sig_x" }

/-- C4 counterexample: on the native-modal path, a payment-UI success
followed by a server-side verification rejection does NOT surface the
distinct contact-support alert — the verify failure lands in the catch
around `RazorpayCheckout.open` and produces the generic payment-failed
alert instead. -/
theorem native_verify_failure_generic_alert :
    Event.alert "Payment Verification Failed" "Please contact support."
        ∉ (handlePlaceOrder
            ⟨.ok sampleOrder, .ok sampleIntent, .success sampleGatewaySuccess,
              false⟩
            .native sampleCart sampleAddress .razorpay).1 ∧
    Event.alert "Payment Failed" "Something went wrong"
        ∈ (handlePlaceOrder
            ⟨.ok sampleOrder, .ok sampleIntent, .success sampleGatewaySuccess,
              false⟩
            .native sampleCart sampleAddress .razorpay).1 := by
  decide

/-- C4 amended: when the payment UI succeeds but the server rejects the
verification tuple, neither platform path clears the cart or emits any
success handling; the web handler surfaces the distinct
contact-support alert, while the native path surfaces the generic
payment-failed alert (its catch wraps the verify call together with the
gateway invocation) and never shows the contact-support alert. -/
theorem verify_failure_handling (co : OrderResult) (ro : RazorpayOrder)
    (g : GatewaySuccess) (grandTotalAmt : Int) (orderId : String)
    (cart : CartState) :
    (Event.alert "Payment Verification Failed" "Please contact support."
        ∈ (handleRazorpayPayment ⟨co, .ok ro, .success g, false⟩ .web
            grandTotalAmt orderId cart).1) ∧
    countClear (handleRazorpayPayment ⟨co, .ok ro, .success g, false⟩ .web
        grandTotalAmt orderId cart).1 = 0 ∧
    (handleRazorpayPayment ⟨co, .ok ro, .success g, false⟩ .web
        grandTotalAmt orderId cart).2 = cart ∧
    ((handleRazorpayPayment ⟨co, .ok ro, .success g, false⟩ .web
        grandTotalAmt orderId cart).1.filter isSuccessHandlingEvent) = [] ∧
    (Event.alert "Payment Failed" "Something went wrong"
        ∈ (handleRazorpayPayment ⟨co, .ok ro, .success g, false⟩ .native
            grandTotalAmt orderId cart).1) ∧
    (Event.alert "Payment Verification Failed" "Please contact support."
        ∉ (handleRazorpayPayment ⟨co, .ok ro, .success g, false⟩ .native
            grandTotalAmt orderId cart).1) ∧
    countClear (handleRazorpayPayment ⟨co, .ok ro, .success g, false⟩ .native
        grandTotalAmt orderId cart).1 = 0 ∧
    (handleRazorpayPayment ⟨co, .ok ro, .success g, false⟩ .native
        grandTotalAmt orderId cart).2 = cart ∧
    ((handleRazorpayPayment ⟨co, .ok ro, .success g, false⟩ .native
        grandTotalAmt orderId cart).1.filter isSuccessHandlingEvent) = [] := by
  simp [handleRazorpayPayment, countClear, isClearEvent,
    isSuccessHandlingEvent]

/-- C7: when the payment UI signals a user cancellation
(`error.code === 'PAYMENT_CANCELLED'` on native; a dismissed widget that
never invokes the success handler on web), the whole flow raises no alert of
any kind, makes no verify call (so no payment is attached to the order,
whose `pending` status is server-owned and untouched by the client), and
leaves the cart unchanged. -/
theorem cancellation_is_silent (order : Order) (ro : RazorpayOrder)
    (d : Option String) (v : Bool) (p : ClientPlatform) (cart : CartState)
    (address : ShippingAddress) (h : validateAddress address = none) :
    hasAlert (handlePlaceOrder
        ⟨.ok order, .ok ro,
          .errRaise { code := some "PAYMENT_CANCELLED", description := d }, v⟩
        p cart address .razorpay).1 = false ∧
    hasVerify (handlePlaceOrder
        ⟨.ok order, .ok ro,
          .errRaise { code := some "PAYMENT_CANCELLED", description := d }, v⟩
        p cart address .razorpay).1 = false ∧
    countClear (handlePlaceOrder
        ⟨.ok order, .ok ro,
          .errRaise { code := some "PAYMENT_CANCELLED", description := d }, v⟩
        p cart address .razorpay).1 = 0 ∧
    (handlePlaceOrder
        ⟨.ok order, .ok ro,
          .errRaise { code := some "PAYMENT_CANCELLED", description := d }, v⟩
        p cart address .razorpay).2 = cart := by
  cases p <;>
    simp [handlePlaceOrder, handleRazorpayPayment, h, hasAlert, isAlertEvent,
      hasVerify, isVerifyEvent, countClear, isClearEvent]

/-- Witness for the cancellation theorem at a concrete valid address,
order, intent and cart. -/
theorem cancellation_is_silent_witness :
    validateAddress sampleAddress = none ∧
    (hasAlert (handlePlaceOrder
        ⟨.ok sampleOrder, .ok sampleIntent,
          .errRaise { code := some "PAYMENT_CANCELLED", description := none },
          true⟩
        .native sampleCart sampleAddress .razorpay).1 = false ∧
    hasVerify (handlePlaceOrder
        ⟨.ok sampleOrder, .ok sampleIntent,
          .errRaise { code := some "PAYMENT_CANCELLED", description := none },
          true⟩
        .native sampleCart sampleAddress .razorpay).1 = false ∧
    countClear (handlePlaceOrder
        ⟨.ok sampleOrder, .ok sampleIntent,
          .errRaise { code := some "PAYMENT_CANCELLED", description := none },
          true⟩
        .native sampleCart sampleAddress .razorpay).1 = 0 ∧
    (handlePlaceOrder
        ⟨.ok sampleOrder, .ok sampleIntent,
          .errRaise { code := some "PAYMENT_CANCELLED", description := none },
          true⟩
        .native sampleCart sampleAddress .razorpay).2 = sampleCart) :=
  ⟨by decide,
    cancellation_is_silent sampleOrder sampleIntent none true .native
      sampleCart sampleAddress (by decide)⟩

/-- C5 counterexample: `handlePlaceOrder` itself performs no empty-cart
check — invoked with an empty cart and a valid address it issues the
order-creation network call (the empty-cart protection lives outside it, in
the screen's render branch, which shows no validation error). -/
theorem empty_cart_order_call :
    hasCreateOrder (handlePlaceOrder
        ⟨.ok sampleOrder, .ok sampleIntent, .success sampleGatewaySuccess,
          true⟩
        .native { items := [], total := 0 } sampleAddress .cod).1 = true ∧
    hasAlert (checkoutScreenPlaceOrder
        ⟨.ok sampleOrder, .ok sampleIntent, .success sampleGatewaySuccess,
          true⟩
        .native { items := [], total := 0 } sampleAddress .cod).1 = false := by
  decide

/-- C5 amended: the order-creation call is issued exactly when the cart is
nonempty and the address passes §4.1: for an invalid address,
`handlePlaceOrder` rejects with the validation alert and nothing else; for
an empty cart, the screen renders the empty-cart view, the place-order
action is unreachable, and no event at all (neither a network call nor a
validation alert) is produced. -/
theorem no_order_call_without_valid_input (env : CheckoutEnv)
    (p : ClientPlatform) (cart : CartState) (address : ShippingAddress)
    (pm : PaymentMethod) (t : Int) :
    hasCreateOrder (checkoutScreenPlaceOrder env p cart address pm).1
      = (!cart.items.isEmpty && (validateAddress address).isNone) ∧
    checkoutScreenPlaceOrder env p { items := [], total := t } address pm
      = ([], { items := [], total := t }) ∧
    (validateAddress address).elim True
      (fun m => handlePlaceOrder env p cart address pm
        = ([.alert "Error" m], cart)) := by
  obtain ⟨co, ci, gw, v⟩ := env
  refine ⟨?_, by simp [checkoutScreenPlaceOrder], ?_⟩
  · cases hit : cart.items <;>
      cases h : validateAddress address <;>
        cases co <;> cases pm <;> cases ci <;> cases p <;> cases gw <;>
          cases v <;>
          simp [checkoutScreenPlaceOrder, handlePlaceOrder,
            handleRazorpayPayment, h, hit, hasCreateOrder,
            isCreateOrderEvent]
  · cases h : validateAddress address <;>
      simp [handlePlaceOrder, h]

/-- C9 counterexample: on the online path the flow puts the literal string
`"razorpay"` — not `"online"` — into the `payment_method` field of the
`POST /orders` body, so the body is not drawn from `{cod, online}`. -/
theorem payment_method_razorpay_not_online :
    Event.createOrderCall
        { shipping_address := sampleAddress, payment_method := "razorpay" }
      ∈ (handlePlaceOrder
          ⟨.ok sampleOrder, .ok sampleIntent, .success sampleGatewaySuccess,
            true⟩
          .native sampleCart sampleAddress .razorpay).1 ∧
    ("razorpay" : String) ≠ "online" ∧ ("razorpay" : String) ≠ "cod" ∧
    orderBodiesUse ["cod", "online"]
      (handlePlaceOrder
          ⟨.ok sampleOrder, .ok sampleIntent, .success sampleGatewaySuccess,
            true⟩
          .native sampleCart sampleAddress .razorpay).1 = false := by
  decide

/-- C9 amended: every order-creation request the flow submits carries a
`payment_method` equal to one of the two literals `"cod"` or `"razorpay"`
(the code's name for the spec's online method). -/
theorem payment_method_in_cod_razorpay (env : CheckoutEnv)
    (p : ClientPlatform) (cart : CartState) (address : ShippingAddress)
    (pm : PaymentMethod) :
    orderBodiesUse ["cod", "razorpay"]
      (handlePlaceOrder env p cart address pm).1 = true := by
  obtain ⟨co, ci, gw, v⟩ := env
  cases h : validateAddress address <;>
    cases co <;> cases pm <;> cases ci <;> cases p <;> cases gw <;> cases v <;>
      simp [handlePlaceOrder, handleRazorpayPayment, h, orderBodiesUse,
        PaymentMethod.toStr] <;>
      split <;> simp [orderBodiesUse]
